import Mathlib

/-!
Shallow embedding of the jewelry workflow dashboard
(`src/jewelryapp.py`, the generic variant, and `src/app_rick.py`, the
"Rick Terry" variant).

Modelling conventions:
* Python floats (prices, deposits) are modelled by rationals `ℚ`; the
  arithmetic the code performs on them is subtraction, clipping at zero
  and exact equality with zero, all of which are represented faithfully.
* A numeric cell of a data frame is `Option ℚ`: `some q` for a value
  that `float` / `pd.to_numeric` converts, `none` for a non-numeric or
  missing cell (pandas `NaN` after coercion with errors="coerce").
* Calendar dates are modelled by their ordinal day number (an `Int`);
  Python `date` comparison is the integer order.
* A raw date cell is `DateStr`: the outcome of handing the cell to
  `pd.to_datetime` is abstracted into its three observable cases
  (blank / unparseable / parses to a given day).
* Python `str.strip()`, `str.lower()` and substring containment are
  modelled character-wise over `String.data`.
-/

/-- Calendar dates, modelled by their ordinal day number. -/
abbrev Date := Int

/-- A raw numeric cell: `some q` when Python `float` (or
`pd.to_numeric(errors="coerce")`) converts it to the value `q`,
`none` when conversion fails (non-numeric string, missing value). -/
abbrev NumCell := Option ℚ

/-- Python `str.strip()` restricted to its trimming behaviour:
drop whitespace characters from both ends. -/
def pyStrip (s : String) : String :=
  ⟨((s.data.dropWhile Char.isWhitespace).reverse.dropWhile Char.isWhitespace).reverse⟩

/-- Python `str.lower()` (character-wise lowering). -/
def pyLower (s : String) : String :=
  ⟨s.data.map Char.toLower⟩

/-- Python substring containment `q in hay` (as used by
`Series.str.contains` on the plain-text queries of the app; regular
expression metacharacters are outside the modelled input space). -/
def pyContains (hay q : String) : Bool :=
  (List.range (hay.data.length + 1)).any (fun i => q.data.isPrefixOf (hay.data.drop i))

/-- Outcome of a raw date cell under `pd.to_datetime`:
`blank` for an empty / whitespace-only string (Python `s.strip()` falsy),
`invalid s` for a non-blank string the parser rejects,
`valid d` for a string that parses to calendar day `d`. -/
inductive DateStr where
  | blank : DateStr
  | invalid (s : String) : DateStr
  | valid (d : Date) : DateStr
deriving DecidableEq, Repr

/-- Serialization of an optional date as done by the add handlers:
`d.isoformat() if d else ""`; an ISO-serialized date parses back to
the same day, an absent date becomes the blank string. -/
def optDateStr : Option Date → DateStr
  | some d => DateStr.valid d
  | none => DateStr.blank

/-- Embeds `to_float` of `src/app_rick.py` lines 58-62:
`try: return float(x) except Exception: return 0.0`. -/
def to_float (x : NumCell) : ℚ :=
  x.getD 0

/-- Embeds `safe_float` of `src/jewelryapp.py` lines 55-59 (identical
fallback-to-zero coercion). -/
def safe_float (x : NumCell) : ℚ :=
  x.getD 0

/-- Embeds `compute_remaining` (`src/jewelryapp.py` lines 62-64 and
`src/app_rick.py` lines 64-66): `rem = total - deposit;
return rem if rem >= 0 else 0.0`. -/
def compute_remaining (total deposit : ℚ) : ℚ :=
  if total - deposit ≥ 0 then total - deposit else 0

/-- Embeds `parse_date` of `src/app_rick.py` lines 68-74: a blank cell
is not parsed at all, an unparseable cell raises inside the `try` and
yields `None`, a parseable cell yields its calendar date. -/
def parse_date : DateStr → Option Date
  | DateStr.blank => none
  | DateStr.invalid _ => none
  | DateStr.valid d => some d

/-- Embeds `is_overdue` of `src/app_rick.py` lines 76-82, with the
current date `today` passed explicitly in place of `date.today()`. -/
def is_overdue (due : DateStr) (status : String) (today : Date) : String :=
  if status = "Completed" then "No"
  else
    match parse_date due with
    | some d => if d < today then "Yes" else "No"
    | none => "No"

/-- The fixed custom-pipeline stage list (identical in both variants). -/
def CUSTOM_STATUSES : List String :=
  ["Consultation", "Design Sketch", "CAD Modeling", "3D Approval", "Casting",
   "Stone Setting", "Final Polish", "Ready for Pickup", "Completed"]

/-- The fixed repair-pipeline stage list (identical in both variants). -/
def REPAIR_STATUSES : List String :=
  ["Intake", "Waiting for Parts", "In Progress", "Quality Check",
   "Ready for Pickup", "Completed"]

/-- Rick variant CAD roster. -/
def CAD_TEAM : List String := ["CAD-1", "CAD-2", "CAD-3"]

/-- Rick variant bench roster. -/
def BENCH_TEAM : List String := ["Bench-1", "Bench-2", "Bench-3", "Bench-4"]

/-- Rick variant front-desk roster. -/
def FRONT_DESK : List String := ["Front Desk"]

/-- Rick variant full assignee roster. -/
def ALL_ASSIGNEES : List String := CAD_TEAM ++ BENCH_TEAM ++ FRONT_DESK

/-- Embeds `value_counts().reindex(keys, fill_value=0)` over a column of
string values: one entry per key, in key order, holding the number of
occurrences of the key in the column (zero if absent). -/
def value_counts_reindex (keys vals : List String) : List (String × Nat) :=
  keys.map (fun k => (k, vals.count k))

/-- Custom-job record of the generic variant (`src/jewelryapp.py`): the
columns of `data/custom_jobs.csv` (it has no Overdue column). -/
structure JRec where
  Job_ID : String
  Client : String
  Item : String
  Assigned_To : String
  Status : String
  Intake_Date : DateStr
  Due_Date : DateStr
  Total_Price : NumCell
  Deposit_Paid : NumCell
  Remaining_Balance : NumCell
  Paid : String
  Notes : String
deriving DecidableEq, Repr

/-- Custom-job record of the Rick variant (`src/app_rick.py`): the
columns of `data_rick/custom_jobs_rick.csv`. -/
structure RRec where
  Job_ID : String
  Client : String
  Item : String
  Phase_Owner : String
  Complexity : String
  Status : String
  Intake_Date : DateStr
  Due_Date : DateStr
  Total_Price : NumCell
  Deposit_Paid : NumCell
  Remaining_Balance : NumCell
  Paid : String
  Overdue : String
  Notes : String
deriving DecidableEq, Repr

/-- Repair-job record of the Rick variant (`src/app_rick.py`): the
columns of `data_rick/repair_jobs_rick.csv`. -/
structure RepRec where
  Job_ID : String
  Client : String
  Item : String
  Repair_Type : String
  Assigned_To : String
  Complexity : String
  Status : String
  Intake_Date : DateStr
  Promised_Date : DateStr
  Total_Price : NumCell
  Deposit_Paid : NumCell
  Remaining_Balance : NumCell
  Paid : String
  Overdue : String
  Notes : String
deriving DecidableEq, Repr

/-- One row of the custom-tab recompute of `src/app_rick.py` lines
241-245 (identical column operations at lines 220-224 and 304-308):
coerce `Total_Price` and `Deposit_Paid` with fallback 0.0, set
`Remaining_Balance := (total - deposit).clip(lower=0.0)`,
`Paid := "Yes" if remaining == 0 else "No"`, and
`Overdue := is_overdue(Due_Date, Status)`. -/
def rickRecomputeRow (today : Date) (r : RRec) : RRec :=
  let total := r.Total_Price.getD 0
  let dep := r.Deposit_Paid.getD 0
  let rem := max (total - dep) 0
  { r with
    Total_Price := some total
    Deposit_Paid := some dep
    Remaining_Balance := some rem
    Paid := if rem = 0 then "Yes" else "No"
    Overdue := is_overdue r.Due_Date r.Status today }

/-- The whole-collection recompute of the Rick custom tab: pandas column
assignments act row-wise, i.e. as a map over the rows. -/
def rickRecompute (today : Date) (rs : List RRec) : List RRec :=
  rs.map (rickRecomputeRow today)

/-- One row of the repair-tab recompute of `src/app_rick.py` lines
407-411 (identical operations at lines 387-391 and 469-473), with the
overdue date taken from `Promised_Date`. -/
def rickRepairRecomputeRow (today : Date) (r : RepRec) : RepRec :=
  let total := r.Total_Price.getD 0
  let dep := r.Deposit_Paid.getD 0
  let rem := max (total - dep) 0
  { r with
    Total_Price := some total
    Deposit_Paid := some dep
    Remaining_Balance := some rem
    Paid := if rem = 0 then "Yes" else "No"
    Overdue := is_overdue r.Promised_Date r.Status today }

/-- The whole-collection recompute of the Rick repair tab. -/
def rickRepairRecompute (today : Date) (rs : List RepRec) : List RepRec :=
  rs.map (rickRepairRecomputeRow today)

/-- One row of the custom-tab recompute of `src/jewelryapp.py` lines
218-224: coerce the three numeric columns with fallback 0.0, then
overwrite `Remaining_Balance` with `(total - deposit).clip(lower=0.0)`
and `Paid` with the exact-zero test (no Overdue column exists). -/
def jewelryRecomputeRow (r : JRec) : JRec :=
  let total := r.Total_Price.getD 0
  let dep := r.Deposit_Paid.getD 0
  let rem := max (total - dep) 0
  { r with
    Total_Price := some total
    Deposit_Paid := some dep
    Remaining_Balance := some rem
    Paid := if rem = 0 then "Yes" else "No" }

/-- The whole-collection recompute of the generic custom tab. -/
def jewelryRecompute (rs : List JRec) : List JRec :=
  rs.map jewelryRecomputeRow

/-- The edit-save path of `src/jewelryapp.py` lines 287-296: the edited
table becomes the new store after recomputing `Remaining_Balance` and
`Paid` over the whole collection. -/
def jewelryEditSave (edited : List JRec) : List JRec :=
  jewelryRecompute edited

/-- The edit-save path of `src/app_rick.py` lines 302-311: the edited
table becomes the new store after the full recompute. -/
def rickEditSave (today : Date) (edited : List RRec) : List RRec :=
  rickRecompute today edited

/-- Raw values of the generic variant's add-custom-job form
(`src/jewelryapp.py` lines 162-174). -/
structure JCustomForm where
  job_id : String
  client : String
  item : String
  assigned : String
  status : String
  intake_date : Date
  due_date : Option Date
  total_price : NumCell
  deposit_paid : NumCell
  notes : String

/-- The new row built by the generic add handler
(`src/jewelryapp.py` lines 182-200). -/
def jewelryNewCustomRow (f : JCustomForm) : JRec :=
  let total := safe_float f.total_price
  let dep := safe_float f.deposit_paid
  let remaining := compute_remaining total dep
  { Job_ID := pyStrip f.job_id
    Client := pyStrip f.client
    Item := pyStrip f.item
    Assigned_To := pyStrip f.assigned
    Status := f.status
    Intake_Date := DateStr.valid f.intake_date
    Due_Date := optDateStr f.due_date
    Total_Price := some total
    Deposit_Paid := some dep
    Remaining_Balance := some remaining
    Paid := if remaining = 0 then "Yes" else "No"
    Notes := pyStrip f.notes }

/-- The generic custom add handler (`src/jewelryapp.py` lines 176-206):
reject when `job_id` or `client` strips to empty (the store is left
unchanged), otherwise append the new row — note that the existing rows
are not recomputed here. -/
def jewelryAddCustom (store : List JRec) (f : JCustomForm) : List JRec :=
  if pyStrip f.job_id = "" then store
  else if pyStrip f.client = "" then store
  else store ++ [jewelryNewCustomRow f]

/-- Raw values of the Rick variant's add-custom-job form
(`src/app_rick.py` lines 174-187). -/
structure RCustomForm where
  job_id : String
  client : String
  item : String
  complexity : String
  status : String
  phase_owner : String
  intake_date : Date
  due_date : Option Date
  total_price : NumCell
  deposit_paid : NumCell
  notes : String

/-- The new row built by the Rick custom add handler
(`src/app_rick.py` lines 193-215). -/
def rickNewCustomRow (today : Date) (f : RCustomForm) : RRec :=
  let total := to_float f.total_price
  let dep := to_float f.deposit_paid
  let rem := compute_remaining total dep
  let due := optDateStr f.due_date
  { Job_ID := pyStrip f.job_id
    Client := pyStrip f.client
    Item := pyStrip f.item
    Phase_Owner := f.phase_owner
    Complexity := f.complexity
    Status := f.status
    Intake_Date := DateStr.valid f.intake_date
    Due_Date := due
    Total_Price := some total
    Deposit_Paid := some dep
    Remaining_Balance := some rem
    Paid := if rem = 0 then "Yes" else "No"
    Overdue := is_overdue due f.status today
    Notes := pyStrip f.notes }

/-- The Rick custom add handler (`src/app_rick.py` lines 189-227):
reject when `job_id` or `client` strips to empty, otherwise append the
new row and recompute the whole collection ("recompute to be safe"). -/
def rickAddCustom (today : Date) (store : List RRec) (f : RCustomForm) : List RRec :=
  if pyStrip f.job_id = "" ∨ pyStrip f.client = "" then store
  else rickRecompute today (store ++ [rickNewCustomRow today f])

/-- The seeded demo record of the generic variant's custom store
(`src/jewelryapp.py` lines 79-97). -/
def jewelrySeedCustom (today : Date) : JRec :=
  { Job_ID := "C-1001"
    Client := "Example Client"
    Item := "Engagement ring"
    Assigned_To := "CAD Team"
    Status := "Consultation"
    Intake_Date := DateStr.valid today
    Due_Date := DateStr.blank
    Total_Price := some 1200
    Deposit_Paid := some 200
    Remaining_Balance := some 1000
    Paid := "No"
    Notes := "Demo record" }

/-- Embeds `load_or_init_csv` of `src/jewelryapp.py` lines 67-120 for
the custom store: when backing storage holds rows they are returned as
parsed (no recompute of derived fields happens here); otherwise the
single seed record is synthesized. -/
def load_or_init_csv (today : Date) (stored : Option (List JRec)) : List JRec :=
  match stored with
  | some rs => rs
  | none => [jewelrySeedCustom today]

/-- The search hit test of the Rick custom tab (`src/app_rick.py` lines
257-261): the lowered query appears in the lowered Job_ID, Client or
Item column. -/
def rickCustomSearchHit (q : String) (r : RRec) : Bool :=
  pyContains (pyLower r.Job_ID) q || pyContains (pyLower r.Client) q ||
    pyContains (pyLower r.Item) q

/-- The Rick custom-tab filter (`src/app_rick.py` lines 248-262):
successive narrowing by status membership, phase-owner membership, the
tri-state overdue selector, and — when the stripped query is non-empty —
the lowered-substring search. -/
def rickCustomFilter (fStatus fOwner : List String) (fOverdue fSearch : String)
    (rs : List RRec) : List RRec :=
  let d1 := rs.filter (fun r => fStatus.contains r.Status)
  let d2 := d1.filter (fun r => fOwner.contains r.Phase_Owner)
  let d3 :=
    if fOverdue = "Only overdue" then d2.filter (fun r => r.Overdue == "Yes")
    else if fOverdue = "Not overdue" then d2.filter (fun r => r.Overdue == "No")
    else d2
  if pyStrip fSearch = "" then d3
  else d3.filter (rickCustomSearchHit (pyLower (pyStrip fSearch)))

/-- The search hit test of the Rick repair tab (`src/app_rick.py` lines
423-428): Job_ID, Client, Item or Repair_Type. -/
def rickRepairSearchHit (q : String) (r : RepRec) : Bool :=
  pyContains (pyLower r.Job_ID) q || pyContains (pyLower r.Client) q ||
    pyContains (pyLower r.Item) q || pyContains (pyLower r.Repair_Type) q

/-- The Rick repair-tab filter (`src/app_rick.py` lines 413-429):
status membership, bench membership, the tri-state overdue selector,
then the search over four fields. -/
def rickRepairFilter (fStatus fBench : List String) (fOverdue fSearch : String)
    (rs : List RepRec) : List RepRec :=
  let d1 := rs.filter (fun r => fStatus.contains r.Status)
  let d2 := d1.filter (fun r => fBench.contains r.Assigned_To)
  let d3 :=
    if fOverdue = "Only overdue" then d2.filter (fun r => r.Overdue == "Yes")
    else if fOverdue = "Not overdue" then d2.filter (fun r => r.Overdue == "No")
    else d2
  if pyStrip fSearch = "" then d3
  else d3.filter (rickRepairSearchHit (pyLower (pyStrip fSearch)))

/-- The search hit test of the generic custom tab
(`src/jewelryapp.py` lines 235-239). -/
def jewelrySearchHit (q : String) (r : JRec) : Bool :=
  pyContains (pyLower r.Job_ID) q || pyContains (pyLower r.Client) q ||
    pyContains (pyLower r.Item) q

/-- The generic custom-tab filter (`src/jewelryapp.py` lines 227-240):
status membership, the tri-state paid selector, then the search. -/
def jewelryCustomFilter (fStatus : List String) (fPaid fSearch : String)
    (rs : List JRec) : List JRec :=
  let d1 := rs.filter (fun r => fStatus.contains r.Status)
  let d2 :=
    if fPaid = "Paid" then d1.filter (fun r => r.Paid == "Yes")
    else if fPaid = "Unpaid" then d1.filter (fun r => r.Paid == "No")
    else d1
  if pyStrip fSearch = "" then d2
  else d2.filter (jewelrySearchHit (pyLower (pyStrip fSearch)))

/-- The stage histogram of the generic custom tab
(`src/jewelryapp.py` line 299):
`Status.value_counts().reindex(CUSTOM_STATUSES, fill_value=0)`. -/
def jewelryStageCounts (rs : List JRec) : List (String × Nat) :=
  value_counts_reindex CUSTOM_STATUSES (rs.map JRec.Status)

/-- The stage histogram of the Rick custom tab
(`src/app_rick.py` line 314). -/
def rickStageCounts (rs : List RRec) : List (String × Nat) :=
  value_counts_reindex CUSTOM_STATUSES (rs.map RRec.Status)

/-- The repair-load-by-bench histogram of the Rick variant
(`src/app_rick.py` lines 479-482): drop completed repairs, then count
`Assigned_To` reindexed over the bench roster. -/
def rickRepairLoad (rs : List RepRec) : List (String × Nat) :=
  let load := rs.filter (fun r => !(r.Status == "Completed"))
  value_counts_reindex BENCH_TEAM (load.map RepRec.Assigned_To)

/-- The non-derived, non-coerced columns of a Rick custom record: all of
the record except Total_Price, Deposit_Paid, Remaining_Balance, Paid
and Overdue. -/
def rickFrame (r : RRec) :
    String × String × String × String × String × String × DateStr × DateStr × String :=
  (r.Job_ID, r.Client, r.Item, r.Phase_Owner, r.Complexity, r.Status,
   r.Intake_Date, r.Due_Date, r.Notes)

/-- The non-derived, non-coerced columns of a generic custom record. -/
def jewelryFrame (r : JRec) :
    String × String × String × String × String × DateStr × DateStr × String :=
  (r.Job_ID, r.Client, r.Item, r.Assigned_To, r.Status, r.Intake_Date,
   r.Due_Date, r.Notes)

/-- Claim-side single-pass predicate for the Rick custom filter: status
membership, owner membership, tri-state overdue match, and search match
on the stripped lowered query (vacuous when the query strips empty). -/
def rickCustomPred (fStatus fOwner : List String) (fOverdue fSearch : String) (r : RRec) : Bool :=
  fStatus.contains r.Status && fOwner.contains r.Phase_Owner &&
    (if fOverdue = "Only overdue" then r.Overdue == "Yes"
     else if fOverdue = "Not overdue" then r.Overdue == "No" else true) &&
    (pyStrip fSearch == "" || rickCustomSearchHit (pyLower (pyStrip fSearch)) r)

/-- Claim-side single-pass predicate for the Rick repair filter. -/
def rickRepairPred (fStatus fBench : List String) (fOverdue fSearch : String) (r : RepRec) : Bool :=
  fStatus.contains r.Status && fBench.contains r.Assigned_To &&
    (if fOverdue = "Only overdue" then r.Overdue == "Yes"
     else if fOverdue = "Not overdue" then r.Overdue == "No" else true) &&
    (pyStrip fSearch == "" || rickRepairSearchHit (pyLower (pyStrip fSearch)) r)

/-- Claim-side single-pass predicate for the generic custom filter. -/
def jewelryCustomPred (fStatus : List String) (fPaid fSearch : String) (r : JRec) : Bool :=
  fStatus.contains r.Status &&
    (if fPaid = "Paid" then r.Paid == "Yes"
     else if fPaid = "Unpaid" then r.Paid == "No" else true) &&
    (pyStrip fSearch == "" || jewelrySearchHit (pyLower (pyStrip fSearch)) r)

/-- A custom record as it can sit in the store right after loading a CSV
whose Status cell is not one of the fixed stages (the load performs no
validation of the Status column). -/
def strayStatusRec : JRec :=
  { Job_ID := "C-7777"
    Client := "Client A"
    Item := "Bracelet"
    Assigned_To := "Bench"
    Status := "Archived"
    Intake_Date := DateStr.blank
    Due_Date := DateStr.blank
    Total_Price := some 10
    Deposit_Paid := some 0
    Remaining_Balance := some 10
    Paid := "No"
    Notes := "" }

/-- A copy of the stray record carrying a given status, for concrete
collections. -/
def withStatus (s : String) : JRec :=
  { strayStatusRec with Status := s }

/-- A completed repair record, concrete input for the C10 witness. -/
def completedRep : RepRec :=
  { Job_ID := "R-9001"
    Client := "Client B"
    Item := "Ring"
    Repair_Type := "Resizing"
    Assigned_To := "Bench-2"
    Complexity := "S (Simple)"
    Status := "Completed"
    Intake_Date := DateStr.blank
    Promised_Date := DateStr.blank
    Total_Price := some 150
    Deposit_Paid := some 150
    Remaining_Balance := some 0
    Paid := "Yes"
    Overdue := "No"
    Notes := "" }

/-- Rejected submission of the generic form: job id strips to empty. -/
def rejForm : JCustomForm :=
  { job_id := " "
    client := "Jane"
    item := ""
    assigned := ""
    status := "Consultation"
    intake_date := 0
    due_date := none
    total_price := some 0
    deposit_paid := some 0
    notes := "" }

/-- Accepted submission of the generic form, spec Scenario 2 shape. -/
def accForm : JCustomForm :=
  { job_id := "C-9"
    client := " Jane "
    item := "Engagement ring"
    assigned := "CAD Team"
    status := "Consultation"
    intake_date := 0
    due_date := none
    total_price := some 100
    deposit_paid := some 100
    notes := "" }

/-- Rejected submission of the Rick form: client strips to empty. -/
def rickRejForm : RCustomForm :=
  { job_id := "C-RT-1002"
    client := "   "
    item := "Pendant"
    complexity := "M (Medium)"
    status := "CAD Modeling"
    phase_owner := "CAD-1"
    intake_date := 0
    due_date := none
    total_price := some 0
    deposit_paid := some 0
    notes := "" }

/-- Accepted submission of the Rick form. -/
def rickAccForm : RCustomForm :=
  { job_id := " C-RT-1003 "
    client := "Bob"
    item := "Bracelet"
    complexity := "S (Simple)"
    status := "Casting"
    phase_owner := "Bench-1"
    intake_date := 10
    due_date := some 5
    total_price := some 200
    deposit_paid := some 50
    notes := " note " }

/-- A stored custom record whose Remaining_Balance cell (5) disagrees
with its price columns (100 - 0); such rows sit in the store after
loading an externally edited CSV, since the load does not recompute. -/
def staleRec : JRec :=
  { Job_ID := "C-1001"
    Client := "Example Client"
    Item := "Engagement ring"
    Assigned_To := "CAD Team"
    Status := "Consultation"
    Intake_Date := DateStr.blank
    Due_Date := DateStr.blank
    Total_Price := some 100
    Deposit_Paid := some 0
    Remaining_Balance := some 5
    Paid := "No"
    Notes := "" }

theorem compute_remaining_eq_max (t d : ℚ) : compute_remaining t d = max 0 (t - d) := by
  unfold compute_remaining
  rcases le_or_lt 0 (t - d) with h | h
  · rw [if_pos h, max_eq_right h]
  · rw [if_neg (not_le.mpr h), max_eq_left h.le]

/-- C1: every record processed by a recomputation pass (prices coerced
with fallback 0.0) gets `Remaining_Balance = max 0 (total - deposit)`
and `Paid = "Yes"` exactly when that remaining balance is exactly zero;
this holds for the helper `compute_remaining` and for the row recompute
of both variants. -/
theorem c1_recompute_remaining_paid :
    (∀ t d : ℚ, compute_remaining t d = max 0 (t - d)) ∧
    (∀ (today : Date) (r : RRec),
      (rickRecomputeRow today r).Remaining_Balance
          = some (max 0 (to_float r.Total_Price - to_float r.Deposit_Paid)) ∧
      ((rickRecomputeRow today r).Paid = "Yes" ↔
        (rickRecomputeRow today r).Remaining_Balance = some 0)) ∧
    (∀ r : JRec,
      (jewelryRecomputeRow r).Remaining_Balance
          = some (max 0 (safe_float r.Total_Price - safe_float r.Deposit_Paid)) ∧
      ((jewelryRecomputeRow r).Paid = "Yes" ↔
        (jewelryRecomputeRow r).Remaining_Balance = some 0)) := by
  refine ⟨compute_remaining_eq_max, fun today r => ?_, fun r => ?_⟩
  · unfold rickRecomputeRow to_float
    refine ⟨by rw [max_comm], ?_⟩
    constructor
    · intro h
      by_cases hz : max (r.Total_Price.getD 0 - r.Deposit_Paid.getD 0) 0 = 0
      · simp only [hz]
      · simp only [if_neg hz] at h
        exact absurd h (by decide)
    · intro h
      simp only [Option.some.injEq] at h
      simp only [if_pos h]
  · unfold jewelryRecomputeRow safe_float
    refine ⟨by rw [max_comm], ?_⟩
    constructor
    · intro h
      by_cases hz : max (r.Total_Price.getD 0 - r.Deposit_Paid.getD 0) 0 = 0
      · simp only [hz]
      · simp only [if_neg hz] at h
        exact absurd h (by decide)
    · intro h
      simp only [Option.some.injEq] at h
      simp only [if_pos h]

/-- C2: the overdue flag is a total Yes/No value, it is "No" whenever
the status is "Completed", and otherwise it is "Yes" exactly when the
date field parses to a calendar date strictly earlier than the current
date; blank or unparseable date fields therefore yield "No". -/
theorem c2_overdue_flag (due : DateStr) (status : String) (today : Date) :
    (is_overdue due status today = "Yes" ∨ is_overdue due status today = "No") ∧
    (is_overdue due status today = "Yes" ↔
      status ≠ "Completed" ∧ ∃ d, parse_date due = some d ∧ d < today) := by
  unfold is_overdue
  by_cases hs : status = "Completed"
  · simp [hs]
  · rw [if_neg hs]
    cases hd : parse_date due with
    | none => simp [hs, hd]
    | some d =>
      by_cases hlt : d < today
      · simp [hs, hd, hlt]
      · simp [hs, hd, hlt]

/-- C7: numeric coercion is total with fallback 0.0 and date parsing is
total with the no-date value for blank or unparseable inputs; the
overdue computation consuming them always produces a flag rather than
propagating an error. -/
theorem c7_coercion_never_raises :
    to_float none = 0 ∧ (∀ q : ℚ, to_float (some q) = q) ∧
    safe_float none = 0 ∧ (∀ q : ℚ, safe_float (some q) = q) ∧
    parse_date DateStr.blank = none ∧
    (∀ s, parse_date (DateStr.invalid s) = none) ∧
    (∀ d, parse_date (DateStr.valid d) = some d) ∧
    (∀ due status today,
      is_overdue due status today = "Yes" ∨ is_overdue due status today = "No") := by
  refine ⟨rfl, fun _ => rfl, rfl, fun _ => rfl, rfl, fun _ => rfl, fun _ => rfl, ?_⟩
  intro due status today
  unfold is_overdue
  by_cases hs : status = "Completed"
  · simp [hs]
  · rw [if_neg hs]
    cases parse_date due with
    | none => simp
    | some d =>
      by_cases hlt : d < today
      · simp [hlt]
      · simp [hlt]

/-- C9: the recomputation pass of either variant is frame-preserving: it
is a map over the rows that leaves every column except Total_Price,
Deposit_Paid, Remaining_Balance, Paid and Overdue unchanged, and keeps
the number and order of records. -/
theorem c9_recompute_frame (today : Date) (rs : List RRec) (js : List JRec) :
    (rickRecompute today rs).map rickFrame = rs.map rickFrame ∧
    (rickRecompute today rs).length = rs.length ∧
    (jewelryRecompute js).map jewelryFrame = js.map jewelryFrame ∧
    (jewelryRecompute js).length = js.length := by
  refine ⟨?_, ?_, ?_, ?_⟩
  · simp only [rickRecompute, List.map_map]
    exact List.map_congr_left fun r _ => rfl
  · simp [rickRecompute]
  · simp only [jewelryRecompute, List.map_map]
    exact List.map_congr_left fun r _ => rfl
  · simp [jewelryRecompute]

theorem rickCustomFilter_eq (fS fO : List String) (fOv q : String) (rs : List RRec) :
    rickCustomFilter fS fO fOv q rs = rs.filter (rickCustomPred fS fO fOv q) := by
  simp only [rickCustomFilter]
  by_cases hq : pyStrip q = ""
  · have hq' : (pyStrip q == "") = true := by simp [hq]
    rw [if_pos hq]
    split_ifs with h1 h2 <;>
      (simp only [List.filter_filter]
       refine List.filter_congr fun r _ => ?_
       simp only [rickCustomPred, hq']
       simp_all [Bool.and_comm, Bool.and_left_comm, Bool.and_assoc])
  · have hq' : (pyStrip q == "") = false := by simp [hq]
    rw [if_neg hq]
    split_ifs with h1 h2 <;>
      (simp only [List.filter_filter]
       refine List.filter_congr fun r _ => ?_
       simp only [rickCustomPred, hq']
       simp_all [Bool.and_comm, Bool.and_left_comm, Bool.and_assoc])

theorem rickRepairFilter_eq (fS fB : List String) (fOv q : String) (rs : List RepRec) :
    rickRepairFilter fS fB fOv q rs = rs.filter (rickRepairPred fS fB fOv q) := by
  simp only [rickRepairFilter]
  by_cases hq : pyStrip q = ""
  · have hq' : (pyStrip q == "") = true := by simp [hq]
    rw [if_pos hq]
    split_ifs with h1 h2 <;>
      (simp only [List.filter_filter]
       refine List.filter_congr fun r _ => ?_
       simp only [rickRepairPred, hq']
       simp_all [Bool.and_comm, Bool.and_left_comm, Bool.and_assoc])
  · have hq' : (pyStrip q == "") = false := by simp [hq]
    rw [if_neg hq]
    split_ifs with h1 h2 <;>
      (simp only [List.filter_filter]
       refine List.filter_congr fun r _ => ?_
       simp only [rickRepairPred, hq']
       simp_all [Bool.and_comm, Bool.and_left_comm, Bool.and_assoc])

theorem jewelryCustomFilter_eq (fS : List String) (fP q : String) (rs : List JRec) :
    jewelryCustomFilter fS fP q rs = rs.filter (jewelryCustomPred fS fP q) := by
  simp only [jewelryCustomFilter]
  by_cases hq : pyStrip q = ""
  · have hq' : (pyStrip q == "") = true := by simp [hq]
    rw [if_pos hq]
    split_ifs with h1 h2 <;>
      ((try simp only [List.filter_filter])
       refine List.filter_congr fun r _ => ?_
       simp only [jewelryCustomPred, hq']
       simp_all [Bool.and_comm, Bool.and_left_comm, Bool.and_assoc])
  · have hq' : (pyStrip q == "") = false := by simp [hq]
    rw [if_neg hq]
    split_ifs with h1 h2 <;>
      ((try simp only [List.filter_filter])
       refine List.filter_congr fun r _ => ?_
       simp only [jewelryCustomPred, hq']
       simp_all [Bool.and_comm, Bool.and_left_comm, Bool.and_assoc])

/-- C6: each tab filter is exactly the one-pass filter by the
conjunction of status membership, assignee/owner membership, the
tri-state overdue selector and (when the query is non-empty) the
case-folded substring search over the tab's searchable fields; the
output is a subsequence of the input in original order, and an empty
allowed-status set yields the empty result. -/
theorem c6_filter_engine :
    (∀ fS fO fOv q (rs : List RRec),
      rickCustomFilter fS fO fOv q rs = rs.filter (rickCustomPred fS fO fOv q)) ∧
    (∀ fS fB fOv q (rs : List RepRec),
      rickRepairFilter fS fB fOv q rs = rs.filter (rickRepairPred fS fB fOv q)) ∧
    (∀ fS fO fOv q (rs : List RRec), (rickCustomFilter fS fO fOv q rs).Sublist rs) ∧
    (∀ fS fB fOv q (rs : List RepRec), (rickRepairFilter fS fB fOv q rs).Sublist rs) ∧
    (∀ fO fOv q (rs : List RRec), rickCustomFilter [] fO fOv q rs = []) ∧
    (∀ fB fOv q (rs : List RepRec), rickRepairFilter [] fB fOv q rs = []) := by
  refine ⟨rickCustomFilter_eq, rickRepairFilter_eq, ?_, ?_, ?_, ?_⟩
  · intro fS fO fOv q rs
    rw [rickCustomFilter_eq]
    exact List.filter_sublist rs
  · intro fS fB fOv q rs
    rw [rickRepairFilter_eq]
    exact List.filter_sublist rs
  · intro fO fOv q rs
    rw [rickCustomFilter_eq]
    simp [rickCustomPred]
  · intro fB fOv q rs
    rw [rickRepairFilter_eq]
    simp [rickRepairPred]

/-- C8: the filter engine is idempotent: filtering an already-filtered
collection with the same specification returns it unchanged, for the
Rick custom filter and the generic custom filter. -/
theorem c8_filter_idempotent :
    (∀ fS fO fOv q (rs : List RRec),
      rickCustomFilter fS fO fOv q (rickCustomFilter fS fO fOv q rs)
        = rickCustomFilter fS fO fOv q rs) ∧
    (∀ fS fP q (rs : List JRec),
      jewelryCustomFilter fS fP q (jewelryCustomFilter fS fP q rs)
        = jewelryCustomFilter fS fP q rs) := by
  constructor
  · intro fS fO fOv q rs
    rw [rickCustomFilter_eq, rickCustomFilter_eq, List.filter_filter]
    exact List.filter_congr fun r _ => by cases rickCustomPred fS fO fOv q r <;> rfl
  · intro fS fP q rs
    rw [jewelryCustomFilter_eq, jewelryCustomFilter_eq, List.filter_filter]
    exact List.filter_congr fun r _ => by cases jewelryCustomPred fS fP q r <;> rfl

theorem count_map_eq_length_filter {α : Type} (f : α → String) (k : String) (rs : List α) :
    (rs.map f).count k = (rs.filter (fun r => f r == k)).length := by
  induction rs with
  | nil => rfl
  | cons r t ih =>
    by_cases h : f r = k
    · simp [List.count_cons, List.filter_cons, h, ih]
    · simp [List.count_cons, List.filter_cons, h, ih]

theorem count_add_filter_length (k : String) (ks : List String) (hk : k ∉ ks)
    (vals : List String) :
    vals.count k + (vals.filter (fun v => decide (v ∈ ks))).length
      = (vals.filter (fun v => decide (v ∈ k :: ks))).length := by
  induction vals with
  | nil => simp
  | cons v vs ih =>
    by_cases hv : v = k
    · have h1 : (v == k) = true := by simp [hv]
      have h2 : decide (v ∈ ks) = false := by simp [hv, hk]
      have h3 : decide (v ∈ k :: ks) = true := by simp [hv]
      simp only [List.count_cons, List.filter_cons, h1, h2, h3, if_true, if_false,
        Bool.false_eq_true, List.length_cons]
      omega
    · by_cases hv2 : v ∈ ks
      · have h1 : (v == k) = false := by simp [hv]
        have h2 : decide (v ∈ ks) = true := by simp [hv2]
        have h3 : decide (v ∈ k :: ks) = true := by simp [hv2]
        simp only [List.count_cons, List.filter_cons, h1, h2, h3, if_true, if_false,
          Bool.false_eq_true, List.length_cons]
        omega
      · have h1 : (v == k) = false := by simp [hv]
        have h2 : decide (v ∈ ks) = false := by simp [hv2]
        have h3 : decide (v ∈ k :: ks) = false := by simp [hv, hv2]
        simp only [List.count_cons, List.filter_cons, h1, h2, h3, if_true, if_false,
          Bool.false_eq_true, List.length_cons]
        omega

theorem sum_counts_eq_length_filter (keys vals : List String) (hk : keys.Nodup) :
    (keys.map (fun k => vals.count k)).sum
      = (vals.filter (fun v => decide (v ∈ keys))).length := by
  induction keys with
  | nil => simp
  | cons k ks ih =>
    have hnd := List.nodup_cons.mp hk
    simp only [List.map_cons, List.sum_cons, ih hnd.2]
    exact count_add_filter_length k ks hnd.1 vals

/-- C4 counterexample: the stage histogram of the one-record collection
whose status is "Archived" (not in the fixed stage list) sums to 0,
not to the collection size 1: statuses outside the stage list are
dropped by the reindex. -/
theorem c4_counterexample :
    ((jewelryStageCounts [strayStatusRec]).map Prod.snd).sum = 0 ∧
    ([strayStatusRec] : List JRec).length = 1 := by
  constructor
  · decide
  · rfl

theorem jewelryStageCounts_sum (rs : List JRec) :
    ((jewelryStageCounts rs).map Prod.snd).sum
      = (rs.filter (fun r => decide (r.Status ∈ CUSTOM_STATUSES))).length := by
  have hnd : CUSTOM_STATUSES.Nodup := by decide
  simp only [jewelryStageCounts, value_counts_reindex, List.map_map]
  have h1 : (Prod.snd ∘ fun k => (k, (rs.map JRec.Status).count k))
      = fun k => (rs.map JRec.Status).count k := rfl
  rw [h1, sum_counts_eq_length_filter _ _ hnd, List.filter_map, List.length_map]
  rfl

theorem rickStageCounts_sum (rs : List RRec) :
    ((rickStageCounts rs).map Prod.snd).sum
      = (rs.filter (fun r => decide (r.Status ∈ CUSTOM_STATUSES))).length := by
  have hnd : CUSTOM_STATUSES.Nodup := by decide
  simp only [rickStageCounts, value_counts_reindex, List.map_map]
  have h1 : (Prod.snd ∘ fun k => (k, (rs.map RRec.Status).count k))
      = fun k => (rs.map RRec.Status).count k := rfl
  rw [h1, sum_counts_eq_length_filter _ _ hnd, List.filter_map, List.length_map]
  rfl

/-- C4 (amended): the stage histogram carries every fixed stage in
pipeline order with its per-status count (zero if absent), and its
counts sum to the number of records whose status belongs to the fixed
stage list — hence to the size of the collection whenever every record
carries a fixed-stage status, but not for collections containing a
status outside the list. -/
theorem c4_amended_stage_histogram :
    (∀ rs : List JRec, jewelryStageCounts rs
        = CUSTOM_STATUSES.map (fun s => (s, (rs.filter (fun r => r.Status == s)).length))) ∧
    (∀ rs : List RRec, rickStageCounts rs
        = CUSTOM_STATUSES.map (fun s => (s, (rs.filter (fun r => r.Status == s)).length))) ∧
    (∀ rs : List JRec, ((jewelryStageCounts rs).map Prod.snd).sum
        = (rs.filter (fun r => decide (r.Status ∈ CUSTOM_STATUSES))).length) ∧
    (∀ rs : List JRec, (∀ r ∈ rs, r.Status ∈ CUSTOM_STATUSES) →
        ((jewelryStageCounts rs).map Prod.snd).sum = rs.length) ∧
    (∀ rs : List RRec, (∀ r ∈ rs, r.Status ∈ CUSTOM_STATUSES) →
        ((rickStageCounts rs).map Prod.snd).sum = rs.length) := by
  refine ⟨?_, ?_, jewelryStageCounts_sum, ?_, ?_⟩
  · intro rs
    simp only [jewelryStageCounts, value_counts_reindex]
    exact List.map_congr_left fun s _ => by rw [count_map_eq_length_filter]
  · intro rs
    simp only [rickStageCounts, value_counts_reindex]
    exact List.map_congr_left fun s _ => by rw [count_map_eq_length_filter]
  · intro rs h
    rw [jewelryStageCounts_sum]
    congr 1
    exact List.filter_eq_self.mpr fun r hr => by simpa using h r hr
  · intro rs h
    rw [rickStageCounts_sum]
    congr 1
    exact List.filter_eq_self.mpr fun r hr => by simpa using h r hr

/-- C4 amended-claim witness: a collection of three custom records with
statuses Consultation, Completed, Completed (all fixed stages) has a
histogram summing to 3, its size. -/
theorem c4_amended_witness :
    ((jewelryStageCounts
        [withStatus "Consultation", withStatus "Completed", withStatus "Completed"]).map
      Prod.snd).sum = 3 :=
  c4_amended_stage_histogram.2.2.2.1
    [withStatus "Consultation", withStatus "Completed", withStatus "Completed"] (by decide)

/-- C10: the repair-load-by-bench histogram gives, for each bench roster
member in roster order, exactly the number of repairs assigned to that
member whose status is not "Completed"; appending a completed repair
changes no bench member's load count. -/
theorem c10_repair_load_excludes_completed :
    (∀ rs : List RepRec, rickRepairLoad rs
        = BENCH_TEAM.map (fun b =>
            (b, (rs.filter
                  (fun r => r.Assigned_To == b && !(r.Status == "Completed"))).length))) ∧
    (∀ (rs : List RepRec) (r : RepRec), r.Status = "Completed" →
        rickRepairLoad (rs ++ [r]) = rickRepairLoad rs) := by
  constructor
  · intro rs
    simp only [rickRepairLoad, value_counts_reindex]
    refine List.map_congr_left fun b _ => ?_
    rw [count_map_eq_length_filter, List.filter_filter]
  · intro rs r h
    simp only [rickRepairLoad]
    have hr : List.filter (fun r => !(r.Status == "Completed")) (rs ++ [r])
        = List.filter (fun r => !(r.Status == "Completed")) rs := by
      rw [List.filter_append]
      simp [h]
    rw [hr]

/-- C10 witness: appending the concrete completed repair to the empty
collection leaves the bench-load histogram unchanged. -/
theorem c10_witness :
    rickRepairLoad ([] ++ [completedRep]) = rickRepairLoad [] :=
  c10_repair_load_excludes_completed.2 [] completedRep rfl

/-- C5: a submission whose job id or client strips to the empty string
is rejected with the store unchanged, in both variants; a submission
with both fields non-empty after stripping admits exactly one new
record whose free-text string fields are the stripped inputs. -/
theorem c5_intake_validation :
    (∀ (store : List JRec) (f : JCustomForm),
        pyStrip f.job_id = "" ∨ pyStrip f.client = "" →
        jewelryAddCustom store f = store) ∧
    (∀ (today : Date) (store : List RRec) (f : RCustomForm),
        pyStrip f.job_id = "" ∨ pyStrip f.client = "" →
        rickAddCustom today store f = store) ∧
    (∀ (store : List JRec) (f : JCustomForm),
        pyStrip f.job_id ≠ "" → pyStrip f.client ≠ "" →
        jewelryAddCustom store f = store ++ [jewelryNewCustomRow f] ∧
        (jewelryNewCustomRow f).Job_ID = pyStrip f.job_id ∧
        (jewelryNewCustomRow f).Client = pyStrip f.client ∧
        (jewelryNewCustomRow f).Item = pyStrip f.item ∧
        (jewelryNewCustomRow f).Assigned_To = pyStrip f.assigned ∧
        (jewelryNewCustomRow f).Notes = pyStrip f.notes) ∧
    (∀ (today : Date) (store : List RRec) (f : RCustomForm),
        pyStrip f.job_id ≠ "" → pyStrip f.client ≠ "" →
        (rickAddCustom today store f).length = store.length + 1 ∧
        (rickAddCustom today store f).getLast?
            = some (rickRecomputeRow today (rickNewCustomRow today f)) ∧
        (rickNewCustomRow today f).Job_ID = pyStrip f.job_id ∧
        (rickNewCustomRow today f).Client = pyStrip f.client ∧
        (rickNewCustomRow today f).Item = pyStrip f.item ∧
        (rickNewCustomRow today f).Notes = pyStrip f.notes ∧
        (rickRecomputeRow today (rickNewCustomRow today f)).Job_ID = pyStrip f.job_id ∧
        (rickRecomputeRow today (rickNewCustomRow today f)).Client = pyStrip f.client) := by
  refine ⟨?_, ?_, ?_, ?_⟩
  · intro store f h
    unfold jewelryAddCustom
    rcases h with h | h
    · rw [if_pos h]
    · by_cases hj : pyStrip f.job_id = ""
      · rw [if_pos hj]
      · rw [if_neg hj, if_pos h]
  · intro today store f h
    unfold rickAddCustom
    rw [if_pos h]
  · intro store f h1 h2
    refine ⟨?_, rfl, rfl, rfl, rfl, rfl⟩
    unfold jewelryAddCustom
    rw [if_neg h1, if_neg h2]
  · intro today store f h1 h2
    have hcond : ¬ (pyStrip f.job_id = "" ∨ pyStrip f.client = "") := by tauto
    refine ⟨?_, ?_, rfl, rfl, rfl, rfl, rfl, rfl⟩
    · unfold rickAddCustom
      rw [if_neg hcond]
      simp [rickRecompute]
    · unfold rickAddCustom
      rw [if_neg hcond]
      simp [rickRecompute, List.getLast?_concat]

/-- C5 witness: concrete rejected submissions leave the empty store
empty, and concrete accepted submissions admit one trimmed record. -/
theorem c5_witness :
    jewelryAddCustom [] rejForm = [] ∧
    rickAddCustom 0 [] rickRejForm = [] ∧
    jewelryAddCustom [] accForm = [jewelryNewCustomRow accForm] ∧
    (jewelryNewCustomRow accForm).Client = "Jane" ∧
    (rickAddCustom 0 [] rickAccForm).length = 1 ∧
    (rickNewCustomRow 0 rickAccForm).Job_ID = "C-RT-1003" := by
  refine ⟨c5_intake_validation.1 [] rejForm (Or.inl (by decide)),
    c5_intake_validation.2.1 0 [] rickRejForm (Or.inr (by decide)),
    (c5_intake_validation.2.2.1 [] accForm (by decide) (by decide)).1, ?_, ?_, ?_⟩
  · rw [(c5_intake_validation.2.2.1 [] accForm (by decide) (by decide)).2.2.1]
    decide
  · exact (c5_intake_validation.2.2.2 0 [] rickAccForm (by decide) (by decide)).1
  · rw [(c5_intake_validation.2.2.2 0 [] rickAccForm (by decide) (by decide)).2.2.1]
    decide

/-- C3 counterexample: inserting a valid submission into the generic
store holding the stale record leaves that record's stored
Remaining_Balance at 5 even though its recomputed value is 100 — the
insert of the generic variant does not apply the recomputation to the
entire collection, so the result differs from the recomputed whole. -/
theorem c3_counterexample :
    (jewelryAddCustom [staleRec] accForm).head? = some staleRec ∧
    staleRec.Remaining_Balance = some 5 ∧
    (jewelryRecomputeRow staleRec).Remaining_Balance = some 100 ∧
    jewelryAddCustom [staleRec] accForm
      ≠ jewelryRecompute ([staleRec] ++ [jewelryNewCustomRow accForm]) := by
  have h1 : ¬ pyStrip accForm.job_id = "" := by decide
  have h2 : ¬ pyStrip accForm.client = "" := by decide
  have hA : (jewelryAddCustom [staleRec] accForm).head? = some staleRec := by
    unfold jewelryAddCustom
    rw [if_neg h1, if_neg h2]
    rfl
  have hC : (jewelryRecomputeRow staleRec).Remaining_Balance = some 100 := by
    show some (max (staleRec.Total_Price.getD 0 - staleRec.Deposit_Paid.getD 0) 0)
        = some 100
    norm_num [staleRec]
  refine ⟨hA, rfl, hC, ?_⟩
  intro hEq
  have hHead := congrArg (fun l => l.head?) hEq
  simp only [hA] at hHead
  have hB : (jewelryRecompute ([staleRec] ++ [jewelryNewCustomRow accForm])).head?
      = some (jewelryRecomputeRow staleRec) := rfl
  rw [hB, Option.some.injEq] at hHead
  have hRB := congrArg JRec.Remaining_Balance hHead
  rw [hC] at hRB
  have h6 : some (5 : ℚ) = some 100 := by rw [← hRB]; rfl
  have h5 : (5 : ℚ) = 100 := Option.some.inj h6
  norm_num at h5

/-- C3 (amended): the Rick variant recomputes the entire collection
after every insert and every edit-save, the generic variant after every
edit-save, and the recomputation output never depends on previously
stored derived values (it overwrites them, manual edits included); but
the generic variant's insert only appends a new record computed in
isolation, and loading stored rows returns them unchanged — the
whole-collection recompute there happens in the view render, not in the
load or the generic insert. -/
theorem c3_amended_recompute_discipline :
    (∀ (today : Date) (store : List RRec) (f : RCustomForm),
        ¬ (pyStrip f.job_id = "" ∨ pyStrip f.client = "") →
        rickAddCustom today store f
          = rickRecompute today (store ++ [rickNewCustomRow today f])) ∧
    (∀ (today : Date) (edited : List RRec),
        rickEditSave today edited = rickRecompute today edited) ∧
    (∀ edited : List JRec, jewelryEditSave edited = jewelryRecompute edited) ∧
    (∀ (today : Date) (r : RRec) (v : NumCell) (p o : String),
        rickRecomputeRow today { r with Remaining_Balance := v, Paid := p, Overdue := o }
          = rickRecomputeRow today r) ∧
    (∀ (r : JRec) (v : NumCell) (p : String),
        jewelryRecomputeRow { r with Remaining_Balance := v, Paid := p }
          = jewelryRecomputeRow r) ∧
    (∀ (store : List JRec) (f : JCustomForm),
        pyStrip f.job_id ≠ "" → pyStrip f.client ≠ "" →
        jewelryAddCustom store f = store ++ [jewelryNewCustomRow f]) ∧
    (∀ (today : Date) (rs : List JRec), load_or_init_csv today (some rs) = rs) := by
  refine ⟨?_, fun _ _ => rfl, fun _ => rfl, fun _ _ _ _ _ => rfl, fun _ _ _ => rfl,
    ?_, fun _ _ => rfl⟩
  · intro today store f h
    unfold rickAddCustom
    rw [if_neg h]
  · intro store f h1 h2
    unfold jewelryAddCustom
    rw [if_neg h1, if_neg h2]

/-- C3 amended-claim witness: concrete instances of the amended
recompute discipline. -/
theorem c3_amended_witness :
    rickAddCustom 0 [] rickAccForm
        = rickRecompute 0 ([] ++ [rickNewCustomRow 0 rickAccForm]) ∧
    jewelryAddCustom [] accForm = [] ++ [jewelryNewCustomRow accForm] ∧
    load_or_init_csv 0 (some [staleRec]) = [staleRec] :=
  ⟨c3_amended_recompute_discipline.1 0 [] rickAccForm (by decide),
   c3_amended_recompute_discipline.2.2.2.2.2.1 [] accForm (by decide) (by decide),
   c3_amended_recompute_discipline.2.2.2.2.2.2 0 [staleRec]⟩
